import Mathlib

/-!
Verification development for the promenade_streamlit report-generation
pipeline.  The Python sources are shallowly embedded: external services
(LLM, web search, SEC full-text search, DART registry, GPTResearcher) are
oracles supplied through an environment record, and the orchestration
functions in `streamlit_app.py`, `app.py` and `prom_functions.py` are
translated into total Lean functions over those oracles.
-/

namespace Promenade

/-! ## Python semantics helpers -/

/-- Prefix test on character lists; backs the substring test below. -/
def isPrefixL : List Char → List Char → Bool
  | [], _ => true
  | _ :: _, [] => false
  | a :: as, b :: bs => a == b && isPrefixL as bs

/-- Substring containment on character lists. -/
def containsL (sub : List Char) : List Char → Bool
  | [] => sub.isEmpty
  | b :: bs => isPrefixL sub (b :: bs) || containsL sub bs

/-- Python `sub in s` for strings: substring containment. -/
def pyIn (sub s : String) : Bool :=
  containsL sub.toList s.toList

/-- Python `s.lower()` (ASCII case folding suffices for the sentinels used). -/
def pyLower (s : String) : String :=
  String.mk (s.toList.map Char.toLower)

/-- Accumulator for parsing a nonempty run of decimal digits. -/
def digitsValCore : List Char → Nat → Option Nat
  | [], acc => some acc
  | c :: rest, acc =>
    if c.isDigit then digitsValCore rest (acc * 10 + (c.toNat - '0'.toNat)) else none

/-- Value of a nonempty all-digit character list, else `none`. -/
def digitsVal : List Char → Option Nat
  | [] => none
  | l => digitsValCore l 0

/-- Characters of a string with surrounding whitespace stripped. -/
def trimmedChars (s : String) : List Char :=
  ((s.toList.dropWhile Char.isWhitespace).reverse.dropWhile Char.isWhitespace).reverse

/-- Python `int(s)`: optional surrounding whitespace, optional sign, decimal
digits; `none` models a raised `ValueError`. -/
def pyInt (s : String) : Option Int :=
  match trimmedChars s with
  | '-' :: rest => (digitsVal rest).map (fun n => -(n : Int))
  | '+' :: rest => (digitsVal rest).map (fun n => (n : Int))
  | l => (digitsVal l).map (fun n => (n : Int))

/-- Python sequence indexing `l[i]` with negative-index wraparound;
`none` models a raised `IndexError`. -/
def pyIndex {α : Type} (l : List α) (i : Int) : Option α :=
  let j : Int := if i < 0 then i + l.length else i
  if j < 0 then none else l.get? j.toNat

/-! ## Data model

`company_data` is the JSON object returned by `generate_company_information`
(`prom_functions.py`).  The orchestrators only observe: overall truthiness,
presence of an "error" key, and the `company_name` / `company_first_name` /
`ticker` fields read with `.get(key, 'N/A')`. -/

structure CompanyData where
  falsy : Bool
  hasError : Bool
  company_name : Option String
  company_first_name : Option String
  ticker : Option String
deriving DecidableEq, Repr

/-- One SEC filing record as consumed by the orchestrator: only the
optional `filingUrl` key is read. -/
structure Filing where
  filingUrl : Option String
deriving DecidableEq, Repr

/-- One DART corporation-info record (element of the short list).  The
orchestrator observes dict truthiness, the presence of an "error" key,
and the `corp_code` value. -/
structure Corp where
  isFalsy : Bool
  hasError : Bool
  corp_code : String
deriving DecidableEq, Repr

/-- Value stored under `report_data['corp_code_data']`: normally a record
from the short list; indexing a *string* short list stores a one-character
string instead (unreachable for the actual producer, kept for fidelity). -/
inductive CorpCodeVal where
  | fromList (c : Corp)
  | fromStr (s : String)
deriving DecidableEq, Repr

/-- Result of `get_dart_company_information` (or `short_list`) as seen by the
orchestrator: either a string (sentinel or error message) or a Python list
of corporation records (empty list is falsy). -/
inductive DartLookup where
  | strResult (s : String)
  | listResult (l : List Corp)
deriving DecidableEq, Repr

/-- The `report_data` dictionary built during a run (`none` = key absent). -/
structure ReportData where
  url : String
  language : String
  company_data : Option CompanyData
  filings_data : Option (List Filing)
  corp_short_list_data : Option DartLookup
  corp_code_data : Option CorpCodeVal
  report_source : Option String
  web_search_reason : Option String
  report : Option String
  images : Option (List String)
deriving DecidableEq, Repr

/-- Outbound network operations issued during a run, in order. -/
inductive NetCall where
  | resolveIdentity
  | secSearchCall
  | secSynthCall (sources : List String)
  | dartLookupCall
  | corpCodeCall
  | dartSearchCall (corp_code : String)
  | dartSynthCall (source : String) (path : Option String)
deriving DecidableEq, Repr

/-- Outcome of one pipeline run: the network calls made and the artifact
appended to the session report list (`none` = run ended with no artifact). -/
structure RunResult where
  calls : List NetCall
  artifact : Option ReportData
deriving DecidableEq, Repr

/-- Oracle environment: outcomes of the external services a run consumes.
`Except.error` models the callee raising an exception. -/
structure Env where
  companyData : CompanyData
  secSearchRes : Except String (List Filing)
  secSynthRes : List String → Except String (String × List String)
  dartLookupRes : Except String DartLookup
  corpCodeRes : Except String String
  dartSearchRes : Except String (Option String)
  dartSynthRes : String → Option String → Except String (String × List String)

/-! ## The orchestrator: streamlit_app.py generate_report_flow -/

/-- Source: `full_name = company_data.get('company_name', 'N/A')`. -/
def fullNameOf (cd : CompanyData) : String :=
  cd.company_name.getD "N/A"

/-- Source: `first_name = company_data.get('company_first_name', 'N/A')`. -/
def firstNameOf (cd : CompanyData) : String :=
  cd.company_first_name.getD "N/A"

/-- Source (streamlit_app.py lines 494-504): if the filings payload is falsy
or has no `filings` entry, `urls = []`; otherwise the comprehension keeps
every filing carrying a `filingUrl`. -/
def effUrls (fl : List Filing) : List String :=
  if fl.isEmpty then [] else fl.filterMap (fun f => f.filingUrl)

/-- English/SEC branch (streamlit_app.py lines 486-530).  A raised
`sec_search` is caught at line 528 and the run continues to the append with
no `report` key.  Both outcomes of `sec_get_report` are handled at lines
507-526: success stores the report, failure substitutes
`"Error generating report: " ++ e` (and empty images). -/
def englishBranch (env : Env) (base : ReportData) : RunResult :=
  match env.secSearchRes with
  | .error _ => { calls := [.resolveIdentity, .secSearchCall], artifact := some base }
  | .ok fl =>
    let rd1 := { base with filings_data := some fl }
    let urls := effUrls fl
    match env.secSynthRes urls with
    | .ok (r, imgs) =>
      { calls := [.resolveIdentity, .secSearchCall, .secSynthCall urls],
        artifact := some { rd1 with report := some r, images := some imgs } }
    | .error e =>
      { calls := [.resolveIdentity, .secSearchCall, .secSynthCall urls],
        artifact := some { rd1 with
                           report := some ("Error generating report: " ++ e),
                           images := some [] } }

/-- Web-search fallback (streamlit_app.py lines 599-621): records the
report source and the reason, then calls `dart_get_report` with source
"web" and no path; a raised call substitutes the diagnostic body. -/
def webPath (env : Env) (rd : ReportData) (reason : String) (pre : List NetCall) : RunResult :=
  let rd2 := { rd with report_source := some "web", web_search_reason := some reason }
  match env.dartSynthRes "web" none with
  | .ok (r, imgs) =>
    { calls := pre ++ [.dartSynthCall "web" none],
      artifact := some { rd2 with report := some r, images := some imgs } }
  | .error e =>
    { calls := pre ++ [.dartSynthCall "web" none],
      artifact := some { rd2 with
                         report := some ("Error generating report: " ++ e),
                         images := some [] } }

/-- DART document path (streamlit_app.py lines 623-663): `dart_search`
raising is caught at line 661 (run continues, `report_source` never set);
`doc_path` falsy degrades the source to "web" with path `None` and, notably,
records no `web_search_reason`; a truthy path keeps "hybrid" with the path.
Either synthesis outcome is handled as in the web fallback. -/
def hybridPath (env : Env) (rd : ReportData) (code : String) (pre : List NetCall) : RunResult :=
  match env.dartSearchRes with
  | .error _ => { calls := pre ++ [.dartSearchCall code], artifact := some rd }
  | .ok docPath =>
    if (match docPath with | some p => p != "" | none => false) then
      match env.dartSynthRes "hybrid" docPath with
      | .ok (r, imgs) =>
        { calls := pre ++ [.dartSearchCall code, .dartSynthCall "hybrid" docPath],
          artifact := some { rd with
                             report_source := some "hybrid",
                             report := some r, images := some imgs } }
      | .error e =>
        { calls := pre ++ [.dartSearchCall code, .dartSynthCall "hybrid" docPath],
          artifact := some { rd with
                             report_source := some "hybrid",
                             report := some ("Error generating report: " ++ e),
                             images := some [] } }
    else
      match env.dartSynthRes "web" none with
      | .ok (r, imgs) =>
        { calls := pre ++ [.dartSearchCall code, .dartSynthCall "web" none],
          artifact := some { rd with
                             report_source := some "web",
                             report := some r, images := some imgs } }
      | .error e =>
        { calls := pre ++ [.dartSearchCall code, .dartSynthCall "web" none],
          artifact := some { rd with
                             report_source := some "web",
                             report := some ("Error generating report: " ++ e),
                             images := some [] } }

/-- Identifier-selector stage over a list short list (streamlit_app.py lines
564-597).  The output string is compared against "N/A"; otherwise
`corp_short_list_data[int(output)]` is evaluated with NO bounds check and NO
local exception handler: a `ValueError` or `IndexError` is only caught by the
generic handler at line 665, after which the run appends an artifact with no
report, no source and no reason.  A selected record is stored, then the
line-577 test (`not corp or "error" in corp or corp == 'N/A'`) routes falsy
or error-carrying records to the web fallback; otherwise the run proceeds to
document fetch with `corp['corp_code']`. -/
def selectorStageList (env : Env) (rd : ReportData) (l : List Corp) : RunResult :=
  let pre := [NetCall.resolveIdentity, NetCall.dartLookupCall, NetCall.corpCodeCall]
  match env.corpCodeRes with
  | .error _ => { calls := pre, artifact := some rd }
  | .ok out =>
    if out = "N/A" then
      webPath env rd "corp code generation failed" pre
    else
      match pyInt out with
      | none => { calls := pre, artifact := some rd }
      | some i =>
        match pyIndex l i with
        | none => { calls := pre, artifact := some rd }
        | some corp =>
          let rd2 := { rd with corp_code_data := some (.fromList corp) }
          if corp.isFalsy || corp.hasError then
            webPath env rd2 "corp code generation failed" pre
          else
            hybridPath env rd2 corp.corp_code pre

/-- Identifier-selector stage when the short-list value is a string that fell
through the sentinel tests (unreachable for the actual producer).  Python
indexes the string: a character is stored as `corp_code_data`, and the later
`char['corp_code']` raises a `TypeError` caught by the generic handler. -/
def selectorStageStr (env : Env) (rd : ReportData) (s : String) : RunResult :=
  let pre := [NetCall.resolveIdentity, NetCall.dartLookupCall, NetCall.corpCodeCall]
  match env.corpCodeRes with
  | .error _ => { calls := pre, artifact := some rd }
  | .ok out =>
    if out = "N/A" then
      webPath env rd "corp code generation failed" pre
    else
      match pyInt out with
      | none => { calls := pre, artifact := some rd }
      | some i =>
        match pyIndex s.toList i with
        | none => { calls := pre, artifact := some rd }
        | some ch =>
          { calls := pre,
            artifact := some { rd with corp_code_data := some (.fromStr (String.singleton ch)) } }

/-- Korean/DART branch (streamlit_app.py lines 532-667).  The lookup result
is matched in source order: the "not in the dart list" sentinel, then any
string containing "Error", then falsiness, then the selector stage. -/
def koreanBranch (env : Env) (base : ReportData) : RunResult :=
  match env.dartLookupRes with
  | .error _ => { calls := [.resolveIdentity, .dartLookupCall], artifact := some base }
  | .ok csl =>
    let rd1 := { base with corp_short_list_data := some csl }
    match csl with
    | .strResult s =>
      if pyIn "not in the dart list" (pyLower s) then
        webPath env rd1 "not in dart list" [.resolveIdentity, .dartLookupCall]
      else if pyIn "Error" s then
        webPath env rd1 "error in dart lookup" [.resolveIdentity, .dartLookupCall]
      else if s = "" then
        webPath env rd1 "not in short dart list" [.resolveIdentity, .dartLookupCall]
      else
        selectorStageStr env rd1 s
    | .listResult l =>
      if l.isEmpty then
        webPath env rd1 "not in short dart list" [.resolveIdentity, .dartLookupCall]
      else
        selectorStageList env rd1 l

/-- Initial `report_data` dictionary: streamlit_app.py lines 410 and 417
set the url, language and company_data keys before any branching. -/
def baseRD (cd : CompanyData) (url lang : String) : ReportData :=
  { url := url, language := lang, company_data := some cd,
    filings_data := none, corp_short_list_data := none, corp_code_data := none,
    report_source := none, web_search_reason := none, report := none, images := none }

/-- Top of `generate_report_flow` (streamlit_app.py lines 409-681): identity
resolution, the two abort checks (falsy-or-error result at line 419, and
`full_name == 'N/A'` at line 436 — both `return` before any jurisdiction
branch and before the append at line 671), then the language dispatch. -/
def runFlow (env : Env) (url lang : String) : RunResult :=
  let cd := env.companyData
  let base : ReportData := baseRD cd url lang
  if cd.falsy || cd.hasError then { calls := [.resolveIdentity], artifact := none }
  else if fullNameOf cd = "N/A" then { calls := [.resolveIdentity], artifact := none }
  else if pyLower lang = "english" then englishBranch env base
  else if pyLower lang = "korean" then koreanBranch env base
  else { calls := [.resolveIdentity], artifact := some base }

/-- Key of an artifact in the session report list. -/
def reportKey (r : ReportData) : String × String :=
  (r.url, r.language)

/-- Lookup of the first artifact with the given key (the UI view buttons and
app.py line 736 both select by this key). -/
def lookupReport (report_list : List ReportData) (url lang : String) : Option ReportData :=
  report_list.find? (fun r => r.url == url && r.language == lang)

/-- Generate-button handler (streamlit_app.py lines 685-691): if the
`(url, language)` key is already present in the session report list, the
flow is not started at all; otherwise the flow runs and its artifact (when
produced) is appended.  Returns (flow started?, network calls, new list). -/
def handleGenerate (env : Env) (report_list : List ReportData) (url lang : String) :
    Bool × List NetCall × List ReportData :=
  if (report_list.map reportKey).contains (url, lang) then
    (false, [], report_list)
  else
    let res := runFlow env url lang
    (true, res.calls,
      match res.artifact with
      | some a => report_list ++ [a]
      | none => report_list)

/-! ## prom_functions.py: short_list (offline-scan Registry Matcher) -/

/-- One entry of the `corp_list.json` snapshot; `text` is `str(corp)`, the
serialized form the matcher scans. -/
structure CorpRec where
  text : String
deriving DecidableEq, Repr

/-- Result of `short_list`: `loadError` is the string
"Error loading company list", `notFound` is the string
"This company is not in the dart list", `found` is the Python list of
matching records. -/
inductive ShortListResult where
  | loadError
  | notFound
  | found (l : List CorpRec)
deriving DecidableEq, Repr

/-- One scan loop of `short_list` (prom_functions.py lines 387-395 and
399-407): append each record whose serialization contains `name`. -/
def scanMatches (name : String) : List CorpRec → List CorpRec
  | [] => []
  | c :: rest =>
    if pyIn name c.text then c :: scanMatches name rest else scanMatches name rest

/-- Embedding of `short_list` (prom_functions.py lines 355-413).
`snapshot = none` models `corp_list.json` failing to open or parse (the
`except` at line 382).  The full-name scan runs first; only when it found
nothing does the first-name scan run; only when both found nothing is the
not-found sentinel returned. -/
def short_list (snapshot : Option (List CorpRec))
    (company_name company_first_name : String) : ShortListResult :=
  match snapshot with
  | none => .loadError
  | some lis =>
    let s1 := scanMatches company_name lis
    if s1.length = 0 then
      let s2 := scanMatches company_first_name lis
      if s2.length = 0 then .notFound else .found s2
    else .found s1

/-! ## prom_functions.py: dart_search (Document Fetcher) -/

/-- External outcomes consumed by `dart_search`: whether
`find_by_corp_code` returned a truthy company, and the result of
`extract_fs` (`error` models a raised exception; the list holds one flag
per extracted frame, true when it is a DataFrame). -/
structure DartSearchEnv where
  companyFound : Bool
  extractRes : Except String (List Bool)

/-- Python `os.path.join` for the one shape used here. -/
def pyPathJoin (a b : String) : String :=
  a ++ "/" ++ b

/-- Embedding of `dart_search` (prom_functions.py lines 479-519): unknown
corp code yields `none`; a raised `extract_fs` yields `none`; a falsy
(empty) statement set yields `none`; otherwise the per-id folder path is
returned (non-DataFrame entries are merely skipped when saving). -/
def dart_search (denv : DartSearchEnv) (corp_code temp_dir : String) : Option String :=
  if !denv.companyFound then none
  else
    match denv.extractRes with
    | .error _ => none
    | .ok fs =>
      if fs.isEmpty then none
      else some (pyPathJoin temp_dir (corp_code ++ "_my_docs"))

/-! ## app.py: the validated selector and the SEC branch -/

/-- Outcome of the candidate-selection block in app.py. -/
inductive AppSel where
  | selected (c : Corp)
  | webFallback (reason : String)
deriving DecidableEq, Repr

/-- Embedding of app.py lines 411-440 (generate_report_flow, DART branch):
the selector output is checked against `None` and "N/A", parsed inside a
`try`, and bounds-checked with `0 <= selected_index < len(...)` before
indexing; each failure routes to a web-search fallback reason. -/
def app_select_candidate (l : List Corp) (out : Option String) : AppSel :=
  match out with
  | none => .webFallback "corp code generation failed - N/A"
  | some s =>
    if s = "N/A" then .webFallback "corp code generation failed - N/A"
    else
      match pyInt s with
      | none => .webFallback "corp code generation failed - non-integer index"
      | some i =>
        if h : 0 ≤ i ∧ i < (l.length : Int) then
          .selected (l.get ⟨i.toNat, by omega⟩)
        else
          .webFallback "corp code generation failed - invalid index"

/-- Embedding of app.py lines 340-377 (generate_report_flow, SEC branch).
Both `except` handlers there execute `return` BEFORE their
`report_data['report'] = ...` assignment (the assignment is unreachable
dead code), so a raised search or a raised synthesis ends the run with no
artifact appended; `none` models that early return. -/
def app_sec_branch (secSearchRes : Except String (List Filing))
    (synth : List String → Except String (String × List String))
    (base : ReportData) : Option ReportData :=
  match secSearchRes with
  | .error _ => none
  | .ok fl =>
    let rd1 := { base with filings_data := some fl }
    match synth (effUrls fl) with
    | .ok (r, imgs) => some { rd1 with report := some r, images := some imgs }
    | .error _ => none

/-! ## Concrete inputs used by closed theorems and witnesses -/

/-- Well-formed identity record. -/
def cdOk : CompanyData :=
  { falsy := false, hasError := false, company_name := some "Acme Corp",
    company_first_name := some "Acme", ticker := some "ACME" }

/-- Identity whose name is the literal string "unknown". -/
def cdUnknown : CompanyData :=
  { cdOk with company_name := some "unknown" }

/-- Ordinary DART corporation record. -/
def corpA : Corp :=
  { isFalsy := false, hasError := false, corp_code := "00126380" }

/-- Second DART corporation record. -/
def corpB : Corp :=
  { isFalsy := false, hasError := false, corp_code := "00164779" }

/-- Synthesizer oracle that succeeds with a fixed report. -/
def okSynth : List String → Except String (String × List String) :=
  fun _ => .ok ("REPORT", [])

/-- DART synthesizer oracle that succeeds with a fixed report. -/
def okDartSynth : String → Option String → Except String (String × List String) :=
  fun _ _ => .ok ("REPORT", [])

/-- Baseline environment where every external service succeeds. -/
def envBase : Env :=
  { companyData := cdOk,
    secSearchRes := .ok [],
    secSynthRes := okSynth,
    dartLookupRes := .ok (.listResult [corpA]),
    corpCodeRes := .ok "0",
    dartSearchRes := .ok (some "/tmp/run/00126380_my_docs"),
    dartSynthRes := okDartSynth }

/-- Environment where the selector answers "7" over two candidates. -/
def envSelOut : Env :=
  { envBase with dartLookupRes := .ok (.listResult [corpA, corpB]),
                 corpCodeRes := .ok "7" }

/-- Environment where the selector answers "-1" over two candidates. -/
def envSelNeg : Env :=
  { envBase with dartLookupRes := .ok (.listResult [corpA, corpB]),
                 corpCodeRes := .ok "-1" }

/-- Environment whose resolved identity is named "unknown". -/
def envUnknown : Env :=
  { envBase with companyData := cdUnknown }

/-- Environment where the document fetch finds no documents. -/
def envNoDocs : Env :=
  { envBase with dartSearchRes := .ok none }

/-- Environment where the SEC search returns three filings with URLs. -/
def envThreeFilings : Env :=
  { envBase with
    secSearchRes := .ok [{ filingUrl := some "https://sec.example/a" },
                         { filingUrl := some "https://sec.example/b" },
                         { filingUrl := some "https://sec.example/c" }] }

/-- Environment where the SEC synthesizer raises. -/
def envSynthFail : Env :=
  { envBase with secSynthRes := fun _ => .error "synthesis failed" }

/-- Environment whose identity record lacks a company name. -/
def envNoName : Env :=
  { envBase with companyData := { cdOk with company_name := none } }

/-- Environment where the DART lookup returns the not-found sentinel. -/
def envStrNotIn : Env :=
  { envBase with dartLookupRes := .ok (.strResult "This company is not in the dart list") }

/-- Environment where the DART lookup returns an error string. -/
def envStrErr : Env :=
  { envBase with dartLookupRes := .ok (.strResult "Error loading company list") }

/-- Environment where the DART lookup returns an empty candidate list. -/
def envEmptyList : Env :=
  { envBase with dartLookupRes := .ok (.listResult []) }

/-- Environment where the selector answers the "N/A" sentinel. -/
def envSelNA : Env :=
  { envBase with corpCodeRes := .ok "N/A" }

/-- Artifact cached from a previous run for key (url, "english"). -/
def rdCached : ReportData :=
  { url := "https://acme.example", language := "english", company_data := some cdOk,
    filings_data := some [], corp_short_list_data := none, corp_code_data := none,
    report_source := none, web_search_reason := none,
    report := some "REPORT", images := some [] }

/-- Empty report_data skeleton used as a base by app.py-level theorems. -/
def rdBase : ReportData :=
  { url := "https://acme.example", language := "english", company_data := some cdOk,
    filings_data := none, corp_short_list_data := none, corp_code_data := none,
    report_source := none, web_search_reason := none, report := none, images := none }

/-! ## Helper lemmas -/

/-- Each scan loop of `short_list` computes a `List.filter`. -/
theorem scanMatches_eq_filter (name : String) (l : List CorpRec) :
    scanMatches name l = l.filter (fun c => pyIn name c.text) := by
  induction l with
  | nil => rfl
  | cons c rest ih =>
    by_cases h : pyIn name c.text = true <;>
      simp [scanMatches, List.filter_cons, h, ih]

/-- Web fallback always appends an artifact carrying the given reason, the
"web" source tag, and a defined report body. -/
theorem webPath_spec (env : Env) (rd : ReportData) (reason : String) (pre : List NetCall) :
    ∃ a, (webPath env rd reason pre).artifact = some a ∧
      a.web_search_reason = some reason ∧ a.report_source = some "web" ∧
      a.report.isSome = true := by
  unfold webPath
  rcases h : env.dartSynthRes "web" none with e | ⟨r, imgs⟩ <;>
    exact ⟨_, rfl, rfl, rfl, rfl⟩

/-- Web fallback never ends the run without an artifact. -/
theorem webPath_artifact_ne_none (env : Env) (rd : ReportData) (reason : String)
    (pre : List NetCall) : (webPath env rd reason pre).artifact ≠ none := by
  obtain ⟨a, ha, -, -, -⟩ := webPath_spec env rd reason pre
  simp [ha]

/-- Document-fetch stage never ends the run without an artifact. -/
theorem hybridPath_artifact_ne_none (env : Env) (rd : ReportData) (code : String)
    (pre : List NetCall) : (hybridPath env rd code pre).artifact ≠ none := by
  unfold hybridPath
  rcases h : env.dartSearchRes with e | dp
  · simp [h]
  · simp only [h]
    split
    · rcases h2 : env.dartSynthRes "hybrid" dp with e2 | ⟨r, imgs⟩ <;> simp [h2]
    · rcases h2 : env.dartSynthRes "web" none with e2 | ⟨r, imgs⟩ <;> simp [h2]

/-- List-valued selector stage never ends the run without an artifact. -/
theorem selectorStageList_artifact_ne_none (env : Env) (rd : ReportData) (l : List Corp) :
    (selectorStageList env rd l).artifact ≠ none := by
  unfold selectorStageList
  rcases h : env.corpCodeRes with e | out
  · simp [h]
  · repeat' split
    all_goals first
      | apply webPath_artifact_ne_none
      | apply hybridPath_artifact_ne_none
      | simp_all

/-- String-valued selector stage never ends the run without an artifact. -/
theorem selectorStageStr_artifact_ne_none (env : Env) (rd : ReportData) (s : String) :
    (selectorStageStr env rd s).artifact ≠ none := by
  unfold selectorStageStr
  rcases h : env.corpCodeRes with e | out
  · simp [h]
  · repeat' split
    all_goals first
      | apply webPath_artifact_ne_none
      | simp_all

/-- Korean branch never ends the run without an artifact. -/
theorem koreanBranch_artifact_ne_none (env : Env) (base : ReportData) :
    (koreanBranch env base).artifact ≠ none := by
  unfold koreanBranch
  rcases h : env.dartLookupRes with e | csl
  · simp [h]
  · repeat' split
    all_goals first
      | apply webPath_artifact_ne_none
      | apply selectorStageStr_artifact_ne_none
      | apply selectorStageList_artifact_ne_none
      | simp_all

/-- English branch never ends the run without an artifact. -/
theorem englishBranch_artifact_ne_none (env : Env) (base : ReportData) :
    (englishBranch env base).artifact ≠ none := by
  unfold englishBranch
  rcases h : env.secSearchRes with e | fl
  · simp [h]
  · simp only [h]
    rcases h2 : env.secSynthRes (effUrls fl) with e2 | ⟨r, imgs⟩ <;> simp [h2]

/-- A key found by `contains` over the mapped keys is found by `find?`. -/
theorem contains_key_lookup (rl : List ReportData) (url lang : String)
    (h : (rl.map reportKey).contains (url, lang) = true) :
    ∃ a, lookupReport rl url lang = some a ∧ a.url = url ∧ a.language = lang := by
  induction rl with
  | nil => simp [List.contains] at h
  | cons r rest ih =>
    by_cases hk : r.url = url ∧ r.language = lang
    · refine ⟨r, ?_, hk.1, hk.2⟩
      simp [lookupReport, List.find?_cons, hk.1, hk.2]
    · have h' : (rest.map reportKey).contains (url, lang) = true := by
        simp only [List.map_cons, List.contains_cons] at h
        rcases Bool.or_eq_true_iff.mp h with heq | hrest
        · exfalso
          apply hk
          have := Prod.ext_iff.mp (eq_of_beq heq)
          exact ⟨this.1.symm, this.2.symm⟩
        · exact hrest
      obtain ⟨a, ha, h1, h2⟩ := ih h'
      refine ⟨a, ?_, h1, h2⟩
      have hpr : (r.url == url && r.language == lang) = false := by
        rcases not_and_or.mp hk with hu | hl
        · simp [hu]
        · simp [hl]
      simpa [lookupReport, List.find?_cons, hpr] using ha

/-- With a usable identity, an "english" run is exactly the SEC branch. -/
theorem runFlow_english_eq (env : Env) (url : String)
    (h1 : env.companyData.falsy = false) (h2 : env.companyData.hasError = false)
    (h3 : fullNameOf env.companyData ≠ "N/A") :
    runFlow env url "english" = englishBranch env (baseRD env.companyData url "english") := by
  have hE : pyLower "english" = "english" := by decide
  unfold runFlow
  simp [h1, h2, h3, hE]

/-- With a usable identity, a "korean" run is exactly the DART branch. -/
theorem runFlow_korean_eq (env : Env) (url : String)
    (h1 : env.companyData.falsy = false) (h2 : env.companyData.hasError = false)
    (h3 : fullNameOf env.companyData ≠ "N/A") :
    runFlow env url "korean" = koreanBranch env (baseRD env.companyData url "korean") := by
  have hK1 : ¬(pyLower "korean" = "english") := by decide
  have hK2 : pyLower "korean" = "korean" := by decide
  unfold runFlow
  simp [h1, h2, h3, hK1, hK2]

/-- A run that passed the identity checks always appends an artifact. -/
theorem runFlow_artifact_ne_none_of_identity (env : Env) (url lang : String)
    (h1 : env.companyData.falsy = false) (h2 : env.companyData.hasError = false)
    (h3 : fullNameOf env.companyData ≠ "N/A") :
    (runFlow env url lang).artifact ≠ none := by
  unfold runFlow
  simp only [h1, h2, Bool.or_false, Bool.false_eq_true, if_false, h3, if_neg]
  split_ifs
  · apply englishBranch_artifact_ne_none
  · apply koreanBranch_artifact_ne_none
  · simp

/-! ## Claim theorems -/

/-- C1: when the (url, jurisdiction) key already has a completed artifact in
the session report list, the generate handler starts no run, performs zero
network calls, leaves the collection unchanged, and the cached artifact for
that key is still the one returned by lookup. -/
theorem duplicate_key_short_circuits (env : Env) (rl : List ReportData) (url lang : String)
    (h : (rl.map reportKey).contains (url, lang) = true) :
    handleGenerate env rl url lang = (false, [], rl) ∧
    ∃ a, lookupReport rl url lang = some a ∧ a.url = url ∧ a.language = lang := by
  refine ⟨?_, contains_key_lookup rl url lang h⟩
  unfold handleGenerate
  rw [if_pos h]

/-- Witness for C1 at a concrete cached report list. -/
theorem duplicate_key_short_circuits_witness :
    handleGenerate envBase [rdCached] "https://acme.example" "english" =
      (false, [], [rdCached]) ∧
    ∃ a, lookupReport [rdCached] "https://acme.example" "english" = some a ∧
      a.url = "https://acme.example" ∧ a.language = "english" :=
  duplicate_key_short_circuits envBase [rdCached] "https://acme.example" "english" (by decide)

/-- C3: the offline-scan matcher first collects every record whose
serialized text contains the full name; exactly when that scan is empty it
rescans with the short name; and exactly when both scans are empty it
returns the not-found outcome. -/
theorem short_list_fullname_then_shortname (snapshot : Option (List CorpRec))
    (lis : List CorpRec) (name fname : String) (h : snapshot = some lis) :
    (lis.filter (fun c => pyIn name c.text) ≠ [] →
       short_list snapshot name fname = .found (lis.filter (fun c => pyIn name c.text))) ∧
    (lis.filter (fun c => pyIn name c.text) = [] →
     lis.filter (fun c => pyIn fname c.text) ≠ [] →
       short_list snapshot name fname = .found (lis.filter (fun c => pyIn fname c.text))) ∧
    (lis.filter (fun c => pyIn name c.text) = [] →
     lis.filter (fun c => pyIn fname c.text) = [] →
       short_list snapshot name fname = .notFound) := by
  subst h
  refine ⟨fun hne => ?_, fun he hne => ?_, fun he1 he2 => ?_⟩ <;>
    simp [short_list, scanMatches_eq_filter, List.length_eq_zero, *]

/-- Witness for C3 at a concrete snapshot. -/
theorem short_list_fullname_then_shortname_witness :
    ([⟨"aaa Samsung bbb"⟩, ⟨"ccc"⟩] : List CorpRec).filter
        (fun c => pyIn "Samsung" c.text) ≠ [] ∧
    short_list (some [⟨"aaa Samsung bbb"⟩, ⟨"ccc"⟩]) "Samsung" "Sam" =
      .found (([⟨"aaa Samsung bbb"⟩, ⟨"ccc"⟩] : List CorpRec).filter
        (fun c => pyIn "Samsung" c.text)) :=
  ⟨by decide,
   (short_list_fullname_then_shortname (some [⟨"aaa Samsung bbb"⟩, ⟨"ccc"⟩])
      [⟨"aaa Samsung bbb"⟩, ⟨"ccc"⟩] "Samsung" "Sam" rfl).1 (by decide)⟩

/-- C10: for every snapshot and every name pair, `short_list` returns
either the load-error sentinel, the not-found sentinel, or a non-empty
match list — never an empty list and never an unhandled fault. -/
theorem short_list_never_empty_never_raises (snapshot : Option (List CorpRec))
    (name fname : String) :
    short_list snapshot name fname = .loadError ∨
    short_list snapshot name fname = .notFound ∨
    ∃ l, short_list snapshot name fname = .found l ∧ l ≠ [] := by
  rcases snapshot with _ | lis
  · exact Or.inl rfl
  · by_cases h1 : (scanMatches name lis).length = 0
    · by_cases h2 : (scanMatches fname lis).length = 0
      · right; left
        simp [short_list, h1, h2]
      · right; right
        refine ⟨scanMatches fname lis, by simp [short_list, h1, h2], ?_⟩
        simpa [List.length_eq_zero] using h2
    · right; right
      refine ⟨scanMatches name lis, by simp [short_list, h1], ?_⟩
      simpa [List.length_eq_zero] using h1

/-- C4: in the global-filings flow, an empty effective URL set (empty
filing set, or filings without URLs) does not abort the run: synthesis is
still invoked with an empty source list, the run appends an artifact with a
defined report body; the app.py variant likewise synthesizes with the empty
list and appends the artifact when synthesis succeeds. -/
theorem empty_filings_still_synthesizes (env : Env) (url : String) (fl : List Filing)
    (h1 : env.companyData.falsy = false) (h2 : env.companyData.hasError = false)
    (h3 : fullNameOf env.companyData ≠ "N/A")
    (h4 : env.secSearchRes = .ok fl) (h5 : effUrls fl = []) :
    (runFlow env url "english").calls =
      [.resolveIdentity, .secSearchCall, .secSynthCall []] ∧
    (∃ a, (runFlow env url "english").artifact = some a ∧ a.report.isSome = true) ∧
    (∀ (base : ReportData) (synth : List String → Except String (String × List String))
       (r : String) (imgs : List String), synth [] = .ok (r, imgs) →
       app_sec_branch (.ok fl) synth base =
         some { base with filings_data := some fl, report := some r, images := some imgs }) := by
  have heq := runFlow_english_eq env url h1 h2 h3
  rw [heq]
  refine ⟨?_, ?_, ?_⟩
  · rcases hsy : env.secSynthRes [] with e | ⟨r, imgs⟩ <;>
      simp [englishBranch, h4, h5, hsy]
  · rcases hsy : env.secSynthRes [] with e | ⟨r, imgs⟩ <;>
      simp [englishBranch, h4, h5, hsy]
  · intro base synth r imgs hsy
    simp [app_sec_branch, h5, hsy]

/-- Witness for C4 at a concrete environment with an empty filing set. -/
theorem empty_filings_still_synthesizes_witness :
    (runFlow envBase "https://acme.example" "english").calls =
      [.resolveIdentity, .secSearchCall, .secSynthCall []] ∧
    (∃ a, (runFlow envBase "https://acme.example" "english").artifact = some a ∧
       a.report.isSome = true) ∧
    (∀ (base : ReportData) (synth : List String → Except String (String × List String))
       (r : String) (imgs : List String), synth [] = .ok (r, imgs) →
       app_sec_branch (.ok []) synth base =
         some { base with filings_data := some [], report := some r, images := some imgs }) :=
  empty_filings_still_synthesizes envBase "https://acme.example" []
    (by decide) (by decide) (by decide) rfl rfl

/-- C5: `dart_search` returns `none` (never raises) when the registry id is
unknown, when extraction raises, and when zero statements are extracted; and
on the hybrid path a `none` document path degrades the run to web-only
synthesis with a completed artifact instead of aborting. -/
theorem dart_search_none_degrades_to_web (env : Env) (url : String)
    (l : List Corp) (out : String) (i : Int) (corp : Corp)
    (h1 : env.companyData.falsy = false) (h2 : env.companyData.hasError = false)
    (h3 : fullNameOf env.companyData ≠ "N/A")
    (h4 : env.dartLookupRes = .ok (.listResult l)) (h5 : l.isEmpty = false)
    (h6 : env.corpCodeRes = .ok out) (h7 : out ≠ "N/A")
    (h8 : pyInt out = some i) (h9 : pyIndex l i = some corp)
    (h10 : corp.isFalsy = false) (h11 : corp.hasError = false)
    (h12 : env.dartSearchRes = .ok none) :
    (∀ (denv : DartSearchEnv) (code tmp : String),
       denv.companyFound = false → dart_search denv code tmp = none) ∧
    (∀ (denv : DartSearchEnv) (code tmp : String),
       denv.extractRes = .ok [] → dart_search denv code tmp = none) ∧
    (∀ (denv : DartSearchEnv) (code tmp e : String),
       denv.extractRes = .error e → dart_search denv code tmp = none) ∧
    (∃ a, (runFlow env url "korean").artifact = some a ∧
       a.report_source = some "web" ∧ a.report.isSome = true) := by
  refine ⟨?_, ?_, ?_, ?_⟩
  · intro denv code tmp h
    simp [dart_search, h]
  · intro denv code tmp h
    by_cases hc : denv.companyFound <;> simp [dart_search, hc, h]
  · intro denv code tmp e h
    by_cases hc : denv.companyFound <;> simp [dart_search, hc, h]
  · rw [runFlow_korean_eq env url h1 h2 h3]
    rcases hsy : env.dartSynthRes "web" none with e | ⟨r, imgs⟩ <;>
      simp [koreanBranch, selectorStageList, hybridPath, h4, h5, h6, h7, h8, h9,
            h10, h11, h12, hsy]

/-- Witness for C5 at a concrete environment whose document fetch is empty. -/
theorem dart_search_none_degrades_to_web_witness :
    (∀ (denv : DartSearchEnv) (code tmp : String),
       denv.companyFound = false → dart_search denv code tmp = none) ∧
    (∀ (denv : DartSearchEnv) (code tmp : String),
       denv.extractRes = .ok [] → dart_search denv code tmp = none) ∧
    (∀ (denv : DartSearchEnv) (code tmp e : String),
       denv.extractRes = .error e → dart_search denv code tmp = none) ∧
    (∃ a, (runFlow envNoDocs "https://acme.example" "korean").artifact = some a ∧
       a.report_source = some "web" ∧ a.report.isSome = true) :=
  dart_search_none_degrades_to_web envNoDocs "https://acme.example" [corpA] "0" 0 corpA
    (by decide) (by decide) (by decide) rfl (by decide) rfl (by decide)
    (by decide) (by decide) (by decide) (by decide) rfl

/-- C6 (amended): a run ends without any artifact exactly when identity
resolution failed — a falsy or error-carrying identity result, or a full
name that resolves to the sentinel string "N/A" (not "unknown") — and such
an abort happens before any jurisdiction branch issues a call. -/
theorem abort_iff_identity_failure (env : Env) (url lang : String) :
    ((runFlow env url lang).artifact = none ↔
       (env.companyData.falsy = true ∨ env.companyData.hasError = true ∨
        fullNameOf env.companyData = "N/A")) ∧
    ((env.companyData.falsy = true ∨ env.companyData.hasError = true ∨
        fullNameOf env.companyData = "N/A") →
       (runFlow env url lang).calls = [NetCall.resolveIdentity]) := by
  constructor
  · constructor
    · intro hnone
      by_contra hc
      push_neg at hc
      obtain ⟨ha, hb, hcN⟩ := hc
      exact runFlow_artifact_ne_none_of_identity env url lang
        (by simpa using ha) (by simpa using hb) hcN hnone
    · intro h
      unfold runFlow
      rcases h with h | h | h
      · simp [h]
      · simp [h]
      · split_ifs <;> simp_all
  · intro h
    unfold runFlow
    rcases h with h | h | h
    · simp [h]
    · simp [h]
    · split_ifs <;> simp_all

/-- Counterexample to C6 as stated: an identity whose full name is the
literal string "unknown" does NOT abort the run — the code's sentinel is
'N/A', so the run proceeds into the jurisdiction branch and appends an
artifact. -/
theorem unknown_sentinel_does_not_abort :
    fullNameOf envUnknown.companyData = "unknown" ∧
    (runFlow envUnknown "https://acme.example" "english").artifact.isSome = true ∧
    (runFlow envUnknown "https://acme.example" "english").calls =
      [.resolveIdentity, .secSearchCall, .secSynthCall []] := by
  refine ⟨by decide, by decide, by decide⟩

/-- Witness for C6 at a concrete identity-failure environment. -/
theorem abort_iff_identity_failure_witness :
    (runFlow envNoName "https://acme.example" "english").artifact = none ∧
    (runFlow envNoName "https://acme.example" "english").calls =
      [NetCall.resolveIdentity] :=
  ⟨(abort_iff_identity_failure envNoName "https://acme.example" "english").1.mpr
     (Or.inr (Or.inr (by decide))),
   (abort_iff_identity_failure envNoName "https://acme.example" "english").2
     (Or.inr (Or.inr (by decide)))⟩

/-- C2 (code bug in streamlit_app.py): the selector output "7" over two
candidates is indexed with no bounds check — the IndexError is caught only
by the generic handler, so the run ends with an artifact carrying no
fallback reason, no report and no source (not the claimed SELECTOR_INVALID
web fallback); output "-1" silently selects the last candidate.  The app.py
variant does validate: out-of-range, non-numeric and negative outputs all
route to its web-fallback reasons. -/
theorem selector_invalid_output_fault :
    (runFlow envSelOut "https://acme.example" "korean").calls =
      [.resolveIdentity, .dartLookupCall, .corpCodeCall] ∧
    (runFlow envSelOut "https://acme.example" "korean").artifact.map
        (fun a => a.web_search_reason) = some none ∧
    (runFlow envSelOut "https://acme.example" "korean").artifact.map
        (fun a => a.report) = some none ∧
    (runFlow envSelOut "https://acme.example" "korean").artifact.map
        (fun a => a.report_source) = some none ∧
    (runFlow envSelNeg "https://acme.example" "korean").artifact.map
        (fun a => a.corp_code_data) = some (some (.fromList corpB)) ∧
    app_select_candidate [corpA, corpB] (some "7") =
      .webFallback "corp code generation failed - invalid index" ∧
    app_select_candidate [corpA, corpB] (some "abc") =
      .webFallback "corp code generation failed - non-integer index" ∧
    app_select_candidate [corpA, corpB] (some "-1") =
      .webFallback "corp code generation failed - invalid index" := by
  refine ⟨by decide, by decide, by decide, by decide, by decide, by decide,
    by decide, by decide⟩

/-- C9 (code bug in app.py): when the synthesizer raises, app.py's handler
returns before its (dead) substitution line, ending the run with no
artifact, while streamlit_app.py substitutes the diagnostic message into
the report body and still appends the artifact. -/
theorem synthesis_failure_app_returns_no_artifact :
    app_sec_branch (.ok []) (fun _ => .error "synthesis failed") rdBase = none ∧
    (runFlow envSynthFail "https://acme.example" "english").artifact.map
        (fun a => a.report) =
      some (some "Error generating report: synthesis failed") ∧
    (runFlow envSynthFail "https://acme.example" "english").artifact.isSome = true := by
  refine ⟨rfl, by decide, by decide⟩

/-- C7 (amended): the DART-lookup-stage failures each record their own
fallback reason — "not in dart list", "error in dart lookup", "not in short
dart list", "corp code generation failed" — and these four strings are
pairwise distinct; but the docs-absent fallback records only
`report_source = "web"` with NO `web_search_reason` on the artifact. -/
theorem fallback_reasons_distinct_mapping (env : Env) (url : String)
    (h1 : env.companyData.falsy = false) (h2 : env.companyData.hasError = false)
    (h3 : fullNameOf env.companyData ≠ "N/A") :
    (∀ s, env.dartLookupRes = .ok (.strResult s) →
       pyIn "not in the dart list" (pyLower s) = true →
       ∃ a, (runFlow env url "korean").artifact = some a ∧
         a.web_search_reason = some "not in dart list" ∧
         a.report_source = some "web" ∧ a.report.isSome = true) ∧
    (∀ s, env.dartLookupRes = .ok (.strResult s) →
       pyIn "not in the dart list" (pyLower s) = false →
       pyIn "Error" s = true →
       ∃ a, (runFlow env url "korean").artifact = some a ∧
         a.web_search_reason = some "error in dart lookup" ∧
         a.report_source = some "web" ∧ a.report.isSome = true) ∧
    (env.dartLookupRes = .ok (.listResult []) →
       ∃ a, (runFlow env url "korean").artifact = some a ∧
         a.web_search_reason = some "not in short dart list" ∧
         a.report_source = some "web" ∧ a.report.isSome = true) ∧
    (∀ l, env.dartLookupRes = .ok (.listResult l) → l.isEmpty = false →
       env.corpCodeRes = .ok "N/A" →
       ∃ a, (runFlow env url "korean").artifact = some a ∧
         a.web_search_reason = some "corp code generation failed" ∧
         a.report_source = some "web" ∧ a.report.isSome = true) ∧
    (∀ (l : List Corp) (out : String) (i : Int) (corp : Corp),
       env.dartLookupRes = .ok (.listResult l) → l.isEmpty = false →
       env.corpCodeRes = .ok out → out ≠ "N/A" → pyInt out = some i →
       pyIndex l i = some corp → corp.isFalsy = false → corp.hasError = false →
       env.dartSearchRes = .ok none →
       ∃ a, (runFlow env url "korean").artifact = some a ∧
         a.web_search_reason = none ∧ a.report_source = some "web") ∧
    (("not in dart list" : String) ≠ "error in dart lookup" ∧
     ("not in dart list" : String) ≠ "not in short dart list" ∧
     ("not in dart list" : String) ≠ "corp code generation failed" ∧
     ("error in dart lookup" : String) ≠ "not in short dart list" ∧
     ("error in dart lookup" : String) ≠ "corp code generation failed" ∧
     ("not in short dart list" : String) ≠ "corp code generation failed") := by
  refine ⟨?_, ?_, ?_, ?_, ?_, by decide⟩
  · intro s h4 h5
    rw [runFlow_korean_eq env url h1 h2 h3]
    rcases hsy : env.dartSynthRes "web" none with e | ⟨r, imgs⟩ <;>
      simp [koreanBranch, webPath, h4, h5, hsy]
  · intro s h4 h5 h6
    rw [runFlow_korean_eq env url h1 h2 h3]
    rcases hsy : env.dartSynthRes "web" none with e | ⟨r, imgs⟩ <;>
      simp [koreanBranch, webPath, h4, h5, h6, hsy]
  · intro h4
    rw [runFlow_korean_eq env url h1 h2 h3]
    rcases hsy : env.dartSynthRes "web" none with e | ⟨r, imgs⟩ <;>
      simp [koreanBranch, webPath, h4, hsy]
  · intro l h4 h5 h6
    rw [runFlow_korean_eq env url h1 h2 h3]
    rcases hsy : env.dartSynthRes "web" none with e | ⟨r, imgs⟩ <;>
      simp [koreanBranch, selectorStageList, webPath, h4, h5, h6, hsy]
  · intro l out i corp h4 h5 h6 h7 h8 h9 h10 h11 h12
    rw [runFlow_korean_eq env url h1 h2 h3]
    rcases hsy : env.dartSynthRes "web" none with e | ⟨r, imgs⟩ <;>
      simp [koreanBranch, selectorStageList, hybridPath, baseRD, h4, h5, h6, h7,
            h8, h9, h10, h11, h12, hsy]

/-- Counterexample to C7 as stated: on the docs-absent fallback the artifact
records no fallback reason at all (the claim says a distinct reason
matching that failure is recorded). -/
theorem docs_absent_reason_omitted :
    (runFlow envNoDocs "https://acme.example" "korean").artifact.map
        (fun a => a.web_search_reason) = some none ∧
    (runFlow envNoDocs "https://acme.example" "korean").artifact.map
        (fun a => a.report_source) = some (some "web") := by
  refine ⟨by decide, by decide⟩

/-- Witness for C7 at concrete environments, one per failure point. -/
theorem fallback_reasons_distinct_mapping_witness :
    (∃ a, (runFlow envStrNotIn "https://acme.example" "korean").artifact = some a ∧
       a.web_search_reason = some "not in dart list" ∧
       a.report_source = some "web" ∧ a.report.isSome = true) ∧
    (∃ a, (runFlow envStrErr "https://acme.example" "korean").artifact = some a ∧
       a.web_search_reason = some "error in dart lookup" ∧
       a.report_source = some "web" ∧ a.report.isSome = true) ∧
    (∃ a, (runFlow envEmptyList "https://acme.example" "korean").artifact = some a ∧
       a.web_search_reason = some "not in short dart list" ∧
       a.report_source = some "web" ∧ a.report.isSome = true) ∧
    (∃ a, (runFlow envSelNA "https://acme.example" "korean").artifact = some a ∧
       a.web_search_reason = some "corp code generation failed" ∧
       a.report_source = some "web" ∧ a.report.isSome = true) ∧
    (∃ a, (runFlow envNoDocs "https://acme.example" "korean").artifact = some a ∧
       a.web_search_reason = none ∧ a.report_source = some "web") :=
  ⟨(fallback_reasons_distinct_mapping envStrNotIn "https://acme.example"
      (by decide) (by decide) (by decide)).1
      "This company is not in the dart list" rfl (by decide),
   (fallback_reasons_distinct_mapping envStrErr "https://acme.example"
      (by decide) (by decide) (by decide)).2.1
      "Error loading company list" rfl (by decide) (by decide),
   (fallback_reasons_distinct_mapping envEmptyList "https://acme.example"
      (by decide) (by decide) (by decide)).2.2.1 rfl,
   (fallback_reasons_distinct_mapping envSelNA "https://acme.example"
      (by decide) (by decide) (by decide)).2.2.2.1 [corpA] rfl (by decide) rfl,
   (fallback_reasons_distinct_mapping envNoDocs "https://acme.example"
      (by decide) (by decide) (by decide)).2.2.2.2.1 [corpA] "0" 0 corpA
      rfl (by decide) rfl (by decide) (by decide) (by decide) (by decide)
      (by decide) rfl⟩

/-- C8 (amended): in the streamlit_app.py SEC flow, when the filings search
returns three filings with URLs, synthesis is invoked with ALL THREE urls
(not truncated to the first two; the urls-take-two slice exists only in the
uncalled generate_report_flow_async), and the artifact carries no fallback
reason. -/
theorem sec_synthesis_receives_all_urls (env : Env) (url : String)
    (f1 f2 f3 : Filing) (u1 u2 u3 : String)
    (h1 : env.companyData.falsy = false) (h2 : env.companyData.hasError = false)
    (h3 : fullNameOf env.companyData ≠ "N/A")
    (h4 : env.secSearchRes = .ok [f1, f2, f3])
    (h5 : f1.filingUrl = some u1) (h6 : f2.filingUrl = some u2)
    (h7 : f3.filingUrl = some u3) :
    (runFlow env url "english").calls =
      [.resolveIdentity, .secSearchCall, .secSynthCall [u1, u2, u3]] ∧
    ∃ a, (runFlow env url "english").artifact = some a ∧
      a.web_search_reason = none := by
  rw [runFlow_english_eq env url h1 h2 h3]
  have hu : effUrls [f1, f2, f3] = [u1, u2, u3] := by
    simp [effUrls, h5, h6, h7]
  constructor
  · rcases hsy : env.secSynthRes [u1, u2, u3] with e | ⟨r, imgs⟩ <;>
      simp [englishBranch, h4, hu, hsy]
  · rcases hsy : env.secSynthRes [u1, u2, u3] with e | ⟨r, imgs⟩ <;>
      simp [englishBranch, baseRD, h4, hu, hsy]

/-- Counterexample to C8 as stated: with three filings the synthesis call
receives all three URLs; it is NOT the claimed first-two truncation. -/
theorem three_urls_not_truncated_to_two :
    (runFlow envThreeFilings "https://acme.example" "english").calls =
      [.resolveIdentity, .secSearchCall,
       .secSynthCall ["https://sec.example/a", "https://sec.example/b",
                      "https://sec.example/c"]] ∧
    (runFlow envThreeFilings "https://acme.example" "english").calls ≠
      [.resolveIdentity, .secSearchCall,
       .secSynthCall ["https://sec.example/a", "https://sec.example/b"]] := by
  refine ⟨by decide, by decide⟩

/-- Witness for C8 at the concrete three-filing environment. -/
theorem sec_synthesis_receives_all_urls_witness :
    (runFlow envThreeFilings "https://acme.example" "english").calls =
      [.resolveIdentity, .secSearchCall,
       .secSynthCall ["https://sec.example/a", "https://sec.example/b",
                      "https://sec.example/c"]] ∧
    ∃ a, (runFlow envThreeFilings "https://acme.example" "english").artifact = some a ∧
      a.web_search_reason = none :=
  sec_synthesis_receives_all_urls envThreeFilings "https://acme.example"
    { filingUrl := some "https://sec.example/a" }
    { filingUrl := some "https://sec.example/b" }
    { filingUrl := some "https://sec.example/c" }
    "https://sec.example/a" "https://sec.example/b" "https://sec.example/c"
    (by decide) (by decide) (by decide) rfl rfl rfl rfl

end Promenade
